import Mathlib

/-!
# Verification development for `gi` (SVG node styling / rendering, `TextViewStates` names)

Shallow embedding of

* `giv/textviewstates_string.go` : `TextViewStates.String`, `TextViewStates.FromString`;
* `svg/node.go` : `Init2DBase`, `Init2D`, `StyleSVG`, `ApplyCSSSVG`, `StyleCSS`, `BBox2D`,
  `ChildrenBBox2D`, `ComputeBBoxSVG`, `Render2D`, `FindSVGURL`, `Marker`.

Go strings are embedded as Lean strings, Go `int` rectangles as `Int` coordinates (only
compared, never added with overflow in the code under study), Go maps as partial functions
from keys to values (a `nil` map and an empty map read the same), pointers that may be `nil`
as `Option`.  Effects that the claims talk about (named-element lookups, log lines) are
returned as explicit traces.

Operations of `gi.Paint`, `gi.RenderState` and `gi.Node2DBase` that `svg/node.go` calls but
that are declared in other files are either parameters (`PaintAPI`, `ParentCtx`, `DocScope`)
or are modelled from the specification and marked as such.
-/

/-- Go `string` values. -/
abbrev GoString := String

/-! ## Package `giv` : `textviewstates_string.go` -/

namespace giv

/-- Go slice expression `s[lo:hi]` on a string all of whose bytes are ASCII
(byte offsets and character offsets coincide). -/
def slice (s : GoString) (lo hi : Nat) : GoString :=
  ⟨(s.data.drop lo).take (hi - lo)⟩

/-- The enum type `TextViewStates` (an integer type). -/
abbrev TextViewStates := Int

/-- Concatenated names of the enum values (line 10). -/
def _TextViewStates_name : GoString :=
  "TextViewActiveTextViewFocusTextViewInactiveTextViewSelTextViewHighlightTextViewStatesN"

/-- Offsets of the names inside `_TextViewStates_name` (line 12). -/
def _TextViewStates_index : List Nat := [0, 14, 27, 43, 54, 71, 86]

/-- The expression `_TextViewStates_name[_TextViewStates_index[j]:_TextViewStates_index[j+1]]`. -/
def TextViewStates.nameAt (j : Nat) : GoString :=
  slice _TextViewStates_name (_TextViewStates_index.getD j 0) (_TextViewStates_index.getD (j + 1) 0)

/-- Method `func (i TextViewStates) String() string` (lines 14-19);
`toString` on `Int` is `strconv.FormatInt(_, 10)`. -/
def TextViewStates.String (i : TextViewStates) : GoString :=
  if i < 0 ∨ i ≥ ((_TextViewStates_index.length - 1 : Nat) : Int) then
    "TextViewStates(" ++ toString i ++ ")"
  else
    TextViewStates.nameAt i.toNat

/-- Method `func (i *TextViewStates) FromString(s string) error` (lines 21-29): the first
component is the value of `*i` after the call, the second the returned error
(`none` for `nil`).  The loop visits `j = 0, 1, ...` in order and stops at the first match. -/
def TextViewStates.FromString (i : TextViewStates) (s : GoString) :
    TextViewStates × Option GoString :=
  match (List.range (_TextViewStates_index.length - 1)).find?
      (fun j => s == TextViewStates.nameAt j) with
  | some j => ((j : Int), none)
  | none => (i, some ("String " ++ s ++ " is not a valid option for type TextViewStates"))

end giv

/-! ## Package `svg` : `node.go` -/

namespace svg

/-! ### Go standard library: `strings`, `image` -/

/-- Function `strings.TrimPrefix`. -/
def TrimPrefix (s pre : GoString) : GoString :=
  if pre.data.isPrefixOf s.data then ⟨s.data.drop pre.data.length⟩ else s

/-- Function `strings.TrimSuffix`. -/
def TrimSuffix (s suf : GoString) : GoString :=
  if suf.data.isSuffixOf s.data then ⟨s.data.take (s.data.length - suf.data.length)⟩ else s

/-- Type `image.Point`. -/
structure Point where
  X : Int
  Y : Int
deriving DecidableEq, Repr

/-- Type `image.Rectangle`. -/
structure Rectangle where
  Min : Point
  Max : Point
deriving DecidableEq, Repr

/-- The zero rectangle `image.ZR`. -/
def ZR : Rectangle := ⟨⟨0, 0⟩, ⟨0, 0⟩⟩

/-- Method `image.Rectangle.Empty`. -/
def Rectangle.Empty (r : Rectangle) : Bool :=
  decide (r.Min.X ≥ r.Max.X) || decide (r.Min.Y ≥ r.Max.Y)

/-- Method `image.Rectangle.Intersect`: the largest rectangle contained in both, the zero
rectangle when they do not overlap. -/
def Rectangle.Intersect (r s : Rectangle) : Rectangle :=
  let r1 : Rectangle :=
    ⟨⟨if r.Min.X < s.Min.X then s.Min.X else r.Min.X, if r.Min.Y < s.Min.Y then s.Min.Y else r.Min.Y⟩,
     ⟨if r.Max.X > s.Max.X then s.Max.X else r.Max.X, if r.Max.Y > s.Max.Y then s.Max.Y else r.Max.Y⟩⟩
  if r1.Empty then ZR else r1

/-- Method `image.Rectangle.In`: every point of `r` is in `s`. -/
def Rectangle.In (r s : Rectangle) : Bool :=
  if r.Empty then true
  else decide (s.Min.X ≤ r.Min.X) && decide (r.Max.X ≤ s.Max.X) &&
    decide (s.Min.Y ≤ r.Min.Y) && decide (r.Max.Y ≤ s.Max.Y)

/-- Method `image.Rectangle.Add`: translation by a point. -/
def Rectangle.Add (r : Rectangle) (p : Point) : Rectangle :=
  ⟨⟨r.Min.X + p.X, r.Min.Y + p.Y⟩, ⟨r.Max.X + p.X, r.Max.Y + p.Y⟩⟩

/-! ### Data model -/

/-- An `svg.Marker` element (declared in another file of the package); only its identity
matters here. -/
structure Marker where
  Nm : GoString
deriving DecidableEq, Repr

/-- A `gi.Node2D` interface value as the type assertion `.(*Marker)` sees it. -/
inductive Node2D where
  | marker (m : Marker)
  | other (nm : GoString)
deriving DecidableEq, Repr

/-- A dynamically typed property value (`interface{}` stored in `ki.Props`): the dynamic
types that `node.go` discriminates.  `markerPtr none` is a `nil` pointer of type `*Marker`;
`other` is any further dynamic type, the `nil` interface included. -/
inductive PropVal where
  | str (s : GoString)
  | markerPtr (m : Option Marker)
  | props (m : GoString → Option PropVal)
  | other (tag : GoString)

/-- Type `ki.Props`, a `map[string]interface{}`. -/
abbrev Props := GoString → Option PropVal

/-- The `nil` (equally, the empty) property map. -/
def Props.nil : Props := fun _ => none

/-- A `gi.Paint` record.  `Off`, `StyleSet` and `XForm` are the fields `node.go` reads or
writes directly; `Sty` stands for all the remaining fields (stroke, fill, font, text, unit
context ...), of a type `S` that `node.go` never looks into; `M` is the transform type
`gi.Matrix2D`. -/
structure Paint (M S : Type) where
  Off : Bool
  StyleSet : Bool
  XForm : M
  Sty : S

/-- Operations that `node.go` calls and whose bodies are outside the files under study:
the methods of `gi.Paint`, `strings.ToLower`, and the flag constant `gi.NoLayout`.
Methods take the receiver first and return the updated receiver. -/
structure PaintAPI (M S : Type) where
  ToLower : GoString → GoString
  NoLayout : Nat
  Defaults : Paint M S → Paint M S
  CopyStyleFrom : Paint M S → Paint M S → Paint M S
  SetStyleProps : Paint M S → Option (Paint M S) → Props → Paint M S
  ToDots : Paint M S → Paint M S
  HasNoStrokeOrFill : Paint M S → Bool

/-- What a node sees of its parent, as returned by the accessors of `gi.Node2DBase`
(`nil` is `none`).  `Parent2D` is `gi.KiToNode2D(node.Parent())`: `none` when there is no
2D parent, `some none` when the parent is not a `gi.Painter`, `some (some p)` when it is a
painter whose `Paint()` is `p`. -/
structure ParentCtx (M S : Type) where
  ParentViewport : Option Nat
  ParentPaint : Option (Paint M S)
  ParentCSSAgg : Option Props
  Parent2D : Option (Option (Paint M S))

/-- The fields of `svg.NodeBase` (with the embedded `gi.Node2DBase` and `ki.Node`) that
`node.go` uses.  `TypeName` is `Type().Name()` of the dynamic type, `IsPainter` the outcome of
the type assertion `.(gi.Painter)` on it, `Viewport` the identity of the viewport the node is
bound to. -/
structure NodeBase (M S : Type) where
  Nm : GoString
  TypeName : GoString
  IsPainter : Bool
  Props : svg.Props
  Class : GoString
  CSS : svg.Props
  CSSAgg : svg.Props
  Flag : Nat
  Viewport : Option Nat
  BBox : Rectangle
  ObjBBox : Rectangle
  VpBBox : Rectangle
  WinBBox : Rectangle
  Pnt : Paint M S

/-! ### Styling (lines 40-136) -/

/-- Function `bitflag.Set` on a 64-bit flag word. -/
def bitflagSet (bits : Nat) (flag : Nat) : Nat :=
  (bits ||| (1 <<< flag)) % 2 ^ 64

/-- Method `NodeBase.Init2DBase` (lines 41-45); `ConnectToViewport` only registers signal
receivers, which are not part of the state embedded here. -/
def Init2DBase {M S : Type} (api : PaintAPI M S) (par : ParentCtx M S) (g : NodeBase M S) :
    NodeBase M S :=
  { g with Viewport := par.ParentViewport, Pnt := api.Defaults g.Pnt }

/-- Method `NodeBase.Init2D` (lines 47-50). -/
def Init2D {M S : Type} (api : PaintAPI M S) (par : ParentCtx M S) (g : NodeBase M S) :
    NodeBase M S :=
  let g1 := Init2DBase api par g
  { g1 with Flag := bitflagSet g1.Flag api.NoLayout }

/-- Modelled from the spec: `gi.AggCSS(agg *ki.Props, css ki.Props)`, declared outside the
files under study; "merge in" the entries of `css` over those of `agg`, an entry of `css`
replacing the entry of `agg` under the same key, every other entry of `agg` staying. -/
def AggCSS (agg css : Props) : Props :=
  fun k => match css k with
    | some v => some v
    | none => agg k

/-- Function `ApplyCSSSVG` (lines 99-125): the updated node and the returned flag. -/
def ApplyCSSSVG {M S : Type} (api : PaintAPI M S) (par : ParentCtx M S) (node : NodeBase M S)
    (key : GoString) (css : Props) : NodeBase M S × Bool :=
  if !node.IsPainter then (node, false)
  else
    match css key with
    | none => (node, false)
    | some (PropVal.props pmap) =>
      match par.Parent2D with
      | some (some pp) => ({ node with Pnt := api.SetStyleProps node.Pnt (some pp) pmap }, true)
      | some none => ({ node with Pnt := api.SetStyleProps node.Pnt none pmap }, true)
      | none => ({ node with Pnt := api.SetStyleProps node.Pnt none pmap }, true)
    | some _ => (node, false)

/-- Function `StyleCSS` (lines 129-136): type selector, then `.class`, then `#name`. -/
def StyleCSS {M S : Type} (api : PaintAPI M S) (par : ParentCtx M S) (node : NodeBase M S)
    (css : Props) : NodeBase M S :=
  let tyn := api.ToLower node.TypeName
  let n1 := (ApplyCSSSVG api par node tyn css).1
  let cln := "." ++ api.ToLower n1.Class
  let n2 := (ApplyCSSSVG api par n1 cln css).1
  let idnm := "#" ++ api.ToLower n2.Nm
  (ApplyCSSSVG api par n2 idnm css).1

/-- Function `StyleSVG` (lines 55-95) on a node whose `Init2D` is `NodeBase.Init2D`.  The
global "current style node" is set on entry and cleared on every return, so it is not part
of the result. -/
def StyleSVG {M S : Type} (api : PaintAPI M S) (par : ParentCtx M S) (gii : NodeBase M S) :
    NodeBase M S :=
  let g := if gii.Viewport.isNone then Init2D api par gii else gii
  if !g.IsPainter then g
  else
    let pc0 : Paint M S := { g.Pnt with StyleSet := false }
    let pc1 : Paint M S :=
      match par.ParentPaint with
      | some pp => api.SetStyleProps (api.CopyStyleFrom pc0 pp) (some pp) g.Props
      | none => api.SetStyleProps pc0 none g.Props
    let pc2 := api.ToDots pc1
    let agg0 : Props :=
      match par.ParentCSSAgg with
      | some pagg => AggCSS g.CSSAgg pagg
      | none => Props.nil
    let agg1 := AggCSS agg0 g.CSS
    let g1 : NodeBase M S := { g with Pnt := pc2, CSSAgg := agg1 }
    let g2 := StyleCSS api par g1 g1.CSSAgg
    let pc := g2.Pnt
    { g2 with Pnt := { pc with Off := if api.HasNoStrokeOrFill pc then true else false } }

/-! ### Bounding boxes and rendering (lines 161-191) -/

/-- The part of `gi.RenderState` that `node.go` touches. -/
structure RenderState (M : Type) where
  XFormStack : List M
  LastRenderBBox : Rectangle

/-- Modelled from the spec: `gi.RenderState.PushXForm`, declared outside the files under
study; "push the node's resolved transform onto a shared transform stack". -/
def RenderState.PushXForm {M : Type} (rs : RenderState M) (xf : M) : RenderState M :=
  { rs with XFormStack := xf :: rs.XFormStack }

/-- Modelled from the spec: `gi.RenderState.PopXForm`, declared outside the files under
study; "pop the transform stack" (nothing to remove from an empty stack). -/
def RenderState.PopXForm {M : Type} (rs : RenderState M) : RenderState M :=
  { rs with XFormStack := rs.XFormStack.tail }

/-- The part of `gi.Viewport2D` (the enclosing SVG viewport `g.Viewport`) that `node.go`
touches: its own viewport and window bounding boxes and its render state. -/
structure Viewport2D (M : Type) where
  VpBBox : Rectangle
  WinBBox : Rectangle
  Render : RenderState M

/-- Method `NodeBase.BBox2D` (lines 161-164). -/
def BBox2D {M S : Type} (vp : Viewport2D M) (_g : NodeBase M S) : Rectangle :=
  vp.Render.LastRenderBBox

/-- Method `NodeBase.ChildrenBBox2D` (lines 169-171). -/
def ChildrenBBox2D {M S : Type} (g : NodeBase M S) : Rectangle :=
  g.VpBBox

/-- Modelled from the spec: `gi.Node2DBase.SetWinBBox`, declared outside the files under
study; "propagates a window-space bbox using the enclosing surface's absolute offset". -/
def SetWinBBox {M S : Type} (vp : Viewport2D M) (g : NodeBase M S) : NodeBase M S :=
  { g with WinBBox := g.VpBBox.Add vp.WinBBox.Min }

/-- Method `NodeBase.ComputeBBoxSVG` (lines 176-181).  `vp` is the viewport object
`g.Viewport` points to; `bbox2D` is the method that the interface call
`g.This.(gi.Node2D).BBox2D()` dispatches to: `BBox2D` above unless the type embedding
`NodeBase` overrides it. -/
def ComputeBBoxSVG {M S : Type} (vp : Viewport2D M)
    (bbox2D : Viewport2D M → NodeBase M S → Rectangle) (g : NodeBase M S) : NodeBase M S :=
  let g1 : NodeBase M S := { g with BBox := bbox2D vp g }
  let g2 : NodeBase M S := { g1 with ObjBBox := g1.BBox }
  let g3 : NodeBase M S := { g2 with VpBBox := vp.VpBBox.Intersect g2.ObjBBox }
  SetWinBBox vp g3

/-- A finite tree of SVG nodes bound to one viewport: the node's `NodeBase`, the `BBox2D`
method of its dynamic type, and its children in insertion order. -/
inductive Tree (M S : Type) where
  | node (g : NodeBase M S) (bbox2D : Viewport2D M → NodeBase M S → Rectangle)
      (kids : List (Tree M S))

/-- The `NodeBase` at the root of a tree. -/
def Tree.base {M S : Type} : Tree M S → NodeBase M S
  | .node g _ _ => g

/-- The children of the root of a tree. -/
def Tree.kids {M S : Type} : Tree M S → List (Tree M S)
  | .node _ _ kids => kids

/-- A child as `Render2DChildren` reaches it: the `Render2D` method of the child's dynamic
type, called through the `gi.Node2D` interface.  It acts on the shared viewport (with its
render state) and leaves the child in a new state of type `κ`. -/
abbrev ChildRender (M κ : Type) := Viewport2D M → Viewport2D M × κ

/-- Modelled from the spec: `gi.Node2DBase.Render2DChildren`, declared outside the files
under study; "recurse into children in insertion order", each child rendering with its own
`Render2D`. -/
def Render2DChildren {M κ : Type} : List (ChildRender M κ) → Viewport2D M → Viewport2D M × List κ
  | [], vp => (vp, [])
  | k :: ks, vp =>
    let r := k vp
    let rs := Render2DChildren ks r.1
    (rs.1, r.2 :: rs.2)

/-- Method `NodeBase.Render2D` (lines 183-191).  `vp` is the viewport object `g.Viewport`
points to, `bbox2D` the `BBox2D` method of the dynamic type, `kids` the children of the node;
the result is the viewport (with its render state), the node and the children after the
call. -/
def NodeBase.Render2D {M S κ : Type} (g : NodeBase M S)
    (bbox2D : Viewport2D M → NodeBase M S → Rectangle) (kids : List (ChildRender M κ))
    (vp : Viewport2D M) : Viewport2D M × NodeBase M S × List κ :=
  let vp1 : Viewport2D M := { vp with Render := vp.Render.PushXForm g.Pnt.XForm }
  let g1 := ComputeBBoxSVG vp1 bbox2D g
  let r := Render2DChildren kids vp1
  let vp2 : Viewport2D M := { r.1 with Render := r.1.Render.PopXForm }
  (vp2, g1, r.2)

mutual
/-- `NodeBase.Render2D` on the root of a tree all of whose nodes render with
`NodeBase.Render2D`: the viewport and the subtree after the call. -/
def Render2D {M S : Type} (vp : Viewport2D M) : Tree M S → Viewport2D M × Tree M S
  | .node g bbox2D kids =>
    let r := g.Render2D bbox2D (Tree.renders kids) vp
    (r.1, .node r.2.1 bbox2D r.2.2)
/-- The children of a tree node as `Render2DChildren` reaches them, in insertion order. -/
def Tree.renders {M S : Type} : List (Tree M S) → List (ChildRender M (Tree M S))
  | [] => []
  | k :: ks => (fun v => Render2D v k) :: Tree.renders ks
end

mutual
/-- Every node of the tree satisfies `p`. -/
def Tree.All {M S : Type} (p : NodeBase M S → Prop) : Tree M S → Prop
  | .node g _ kids => p g ∧ Tree.AllList p kids
/-- Every node of every tree of the list satisfies `p`. -/
def Tree.AllList {M S : Type} (p : NodeBase M S → Prop) : List (Tree M S) → Prop
  | [] => True
  | k :: ks => Tree.All p k ∧ Tree.AllList p ks
end

mutual
/-- Every child's `VpBBox` is contained (`In`) in its parent's `VpBBox`, at every depth. -/
def Tree.nested {M S : Type} : Tree M S → Bool
  | .node g _ kids => Tree.nestedIn g.VpBBox kids
/-- Every tree of the list has its root `VpBBox` contained in `r` and is nested itself. -/
def Tree.nestedIn {M S : Type} (r : Rectangle) : List (Tree M S) → Bool
  | [] => true
  | k :: ks => k.base.VpBBox.In r && k.nested && Tree.nestedIn r ks
end

/-! ### References (lines 196-240) -/

/-- A line written with `log.Printf`. -/
inductive LogEntry where
  | couldNotFind (url path : GoString)
  | markerPropType
  | notAMarker (mnm : GoString)
deriving DecidableEq, Repr

/-- A returned value together with the effects of the call: the names passed to
`FindNamedElement`, in order, and the lines logged, in order. -/
structure Traced (α : Type) where
  result : α
  lookups : List GoString
  logs : List LogEntry

/-- What `FindSVGURL` uses of its receiver through methods declared outside the files under
study: `g.FindNamedElement` (`nil` is `none`) and `g.PathUnique()`. -/
structure DocScope where
  FindNamedElement : GoString → Option Node2D
  PathUnique : GoString

/-- Method `NodeBase.FindSVGURL` (lines 198-209). -/
def FindSVGURL (d : DocScope) (url : GoString) : Traced (Option Node2D) :=
  if url = "none" then ⟨none, [], []⟩
  else
    let url1 := TrimPrefix url "url("
    let url2 := TrimSuffix url1 ")"
    match d.FindNamedElement url2 with
    | none => ⟨none, [url2], [LogEntry.couldNotFind url2 d.PathUnique]⟩
    | some rv => ⟨some rv, [url2], []⟩

/-- Lines 221-239 of `NodeBase.Marker`: what is done with the property value `ms` once it
has been fetched. -/
def markerResolve (d : DocScope) (ms : PropVal) : Traced (Option Marker) :=
  match ms with
  | PropVal.str mnm =>
    let r := FindSVGURL d mnm
    match r.result with
    | some (Node2D.marker mrk) => ⟨some mrk, r.lookups, r.logs⟩
    | some (Node2D.other _) => ⟨none, r.lookups, r.logs ++ [LogEntry.notAMarker mnm]⟩
    | none => ⟨none, r.lookups, r.logs⟩
  | PropVal.markerPtr mrk => ⟨mrk, [], []⟩
  | _ => ⟨none, [], [LogEntry.markerPropType]⟩

/-- Method `NodeBase.Marker` (lines 213-240). -/
def NodeBase.Marker {M S : Type} (g : NodeBase M S) (d : DocScope) (marker : GoString) :
    Traced (Option Marker) :=
  match g.Props marker with
  | some ms => markerResolve d ms
  | none =>
    match g.Props "marker" with
    | some ms => markerResolve d ms
    | none => ⟨none, [], []⟩

/-! ### Concrete inputs -/

/-- Modelled from the spec: a paint record whose style part maps a property name ("fill",
"stroke", ...) to its resolved value; properties are applied by overwriting the slot of the
same name, a value of another dynamic type leaving the slot as it was; inheritance copies
the parent's slots; the paint has no stroke or fill when both slots are empty.  It
instantiates `PaintAPI` on concrete inputs. -/
def samplePaintAPI : PaintAPI Nat (GoString → Option GoString) where
  ToLower := fun s => ⟨s.data.map Char.toLower⟩
  NoLayout := 0
  Defaults := fun p => { p with Off := false, StyleSet := false, Sty := fun _ => none }
  CopyStyleFrom := fun p pp => { p with Off := pp.Off, Sty := pp.Sty }
  SetStyleProps := fun p _ pm =>
    { p with
      StyleSet := true
      Sty := fun k => match pm k with
        | some (PropVal.str v) => some v
        | _ => p.Sty k }
  ToDots := fun p => p
  HasNoStrokeOrFill := fun p => (p.Sty "stroke").isNone && (p.Sty "fill").isNone

/-- A paint record with nothing set. -/
def samplePaint : Paint Nat (GoString → Option GoString) :=
  { Off := false, StyleSet := false, XForm := 0, Sty := fun _ => none }

/-- A node named `x` of type `Rect` and class `g1`, with no properties or CSS. -/
def sampleNode : NodeBase Nat (GoString → Option GoString) :=
  { Nm := "x", TypeName := "Rect", IsPainter := true, Props := Props.nil, Class := "g1",
    CSS := Props.nil, CSSAgg := Props.nil, Flag := 0, Viewport := some 1,
    BBox := ZR, ObjBBox := ZR, VpBBox := ZR, WinBBox := ZR, Pnt := samplePaint }

/-- A property group with the single entry `key: val`. -/
def propGroup (key val : GoString) : Props :=
  fun k => if k = key then some (PropVal.str val) else none

/-- A CSS block with conflicting `fill` rules under the type, class and id keys of
`sampleNode`. -/
def sampleCSS : Props :=
  fun k =>
    if k = "rect" then some (PropVal.props (propGroup "fill" "red"))
    else if k = ".g1" then some (PropVal.props (propGroup "fill" "blue"))
    else if k = "#x" then some (PropVal.props (propGroup "fill" "green"))
    else none

/-- A CSS aggregate left over from an earlier pass, with a rule under the key `circle`. -/
def staleAgg : Props :=
  fun k => if k = "circle" then some (PropVal.props (propGroup "fill" "red")) else none

/-- A viewport 100 wide and high whose last rendered path covered `(0,0)-(10,10)`. -/
def sampleViewport : Viewport2D Nat :=
  { VpBBox := ⟨⟨0, 0⟩, ⟨100, 100⟩⟩, WinBBox := ⟨⟨0, 0⟩, ⟨100, 100⟩⟩,
    Render := { XFormStack := [], LastRenderBBox := ⟨⟨0, 0⟩, ⟨10, 10⟩⟩ } }

/-- A parent with the `BBox2D` of `NodeBase` and one child whose type overrides `BBox2D` and
reports the box `(20,20)-(30,30)`. -/
def sampleTree : Tree Nat (GoString → Option GoString) :=
  .node { sampleNode with Nm := "p" } BBox2D
    [.node sampleNode (fun _ _ => ⟨⟨20, 20⟩, ⟨30, 30⟩⟩) []]

/-- A child of another type whose `Render2D` draws a path covering `(40,40)-(50,50)` and
leaves the transform stack alone. -/
def sampleDrawingChild : ChildRender Nat Unit :=
  fun v => ({ v with Render := { v.Render with LastRenderBBox := ⟨⟨40, 40⟩, ⟨50, 50⟩⟩ } }, ())

/-- A node without a parent. -/
def rootCtx : ParentCtx Nat (GoString → Option GoString) :=
  { ParentViewport := some 1, ParentPaint := none, ParentCSSAgg := none, Parent2D := none }

/-- A parent that is a painter with an empty CSS aggregate. -/
def painterCtx : ParentCtx Nat (GoString → Option GoString) :=
  { ParentViewport := some 1, ParentPaint := some samplePaint, ParentCSSAgg := some Props.nil,
    Parent2D := some (some samplePaint) }

end svg

/-! ## Theorems -/

namespace giv

/-- C10: `String` and `FromString` round-trip.  For every `i` with `0 <= i < 6`,
`FromString(i.String())` returns no error and stores `i` (whatever `*i` held before); and
for every string `s`, when `FromString(s)` returns no error, `s` is the `String()` of the
value it stored. -/
theorem TextViewStates_roundtrip :
    (∀ i old : TextViewStates, 0 ≤ i → i < 6 →
        TextViewStates.FromString old (TextViewStates.String i) = (i, none)) ∧
    (∀ (s : GoString) (old : TextViewStates),
        (TextViewStates.FromString old s).2 = none →
        s = TextViewStates.String (TextViewStates.FromString old s).1) := by
  constructor
  · intro i old h0 h6
    have hfind : (List.range (_TextViewStates_index.length - 1)).find?
        (fun j => TextViewStates.String i == TextViewStates.nameAt j) = some i.toNat := by
      interval_cases i <;> decide
    unfold TextViewStates.FromString
    rw [hfind]
    simp only [Int.toNat_of_nonneg h0]
  · intro s old h
    unfold TextViewStates.FromString at h ⊢
    cases hf : (List.range (_TextViewStates_index.length - 1)).find?
        (fun j => s == TextViewStates.nameAt j) with
    | none => rw [hf] at h; simp at h
    | some j =>
      simp only []
      have hm := List.find?_some hf
      have hmem := List.mem_of_find?_eq_some hf
      simp [_TextViewStates_index] at hmem
      have hs : s = TextViewStates.nameAt j := by simpa using hm
      interval_cases j <;> (rw [hs]; decide)

/-- Witness for C10 at the value 3 and at the string `TextViewSel`. -/
theorem TextViewStates_roundtrip_witness :
    TextViewStates.FromString 0 (TextViewStates.String 3) = (3, none) ∧
    "TextViewSel" = TextViewStates.String (TextViewStates.FromString 0 "TextViewSel").1 :=
  ⟨TextViewStates_roundtrip.1 3 0 (by decide) (by decide),
   TextViewStates_roundtrip.2 "TextViewSel" 0 (by decide)⟩

end giv

namespace svg

/-! ### References -/

/-- A `url(#...)` string is never the literal `none`. -/
theorem wrapped_ne_none (n : GoString) : "url(#" ++ n ++ ")" ≠ "none" := by
  intro h
  have h2 := congrArg String.data h
  simp [String.data_append] at h2

/-- Trimming `url(` from `url(#n)` leaves `#n)`. -/
theorem TrimPrefix_wrapped (n : GoString) :
    TrimPrefix ("url(#" ++ n ++ ")") "url(" = "#" ++ n ++ ")" := by
  unfold TrimPrefix
  apply String.ext
  simp [String.data_append, List.isPrefixOf]

/-- Trimming `)` from a string that ends with it removes exactly that last character. -/
theorem TrimSuffix_close (s : GoString) : TrimSuffix (s ++ ")") ")" = s := by
  unfold TrimSuffix
  apply String.ext
  simp [String.data_append, List.isSuffixOf]

/-- C7: `FindSVGURL("none")` returns no node, passes no name to the named-element lookup and
logs nothing, for every lookup function and node path. -/
theorem FindSVGURL_none (d : DocScope) :
    (FindSVGURL d "none").result = none ∧ (FindSVGURL d "none").lookups = [] ∧
    (FindSVGURL d "none").logs = [] := by
  simp [FindSVGURL]

/-- C8 as stated fails: with an element named `a` in scope, `FindSVGURL("a")` looks up `a`
and finds it, while `FindSVGURL("url(#a)")` looks up `#a` and finds nothing. -/
theorem FindSVGURL_wrapped_differs :
    let d : DocScope :=
      { FindNamedElement := fun s => if s = "a" then some (Node2D.other "a") else none,
        PathUnique := "/svg/p" }
    (FindSVGURL d "url(#a)").lookups = ["#a"] ∧ (FindSVGURL d "a").lookups = ["a"] ∧
    (FindSVGURL d "url(#a)").result = none ∧
    (FindSVGURL d "a").result = some (Node2D.other "a") ∧
    (FindSVGURL d "url(#a)").lookups ≠ (FindSVGURL d "a").lookups ∧
    (FindSVGURL d "url(#a)").result ≠ (FindSVGURL d "a").result := by
  decide

/-- C8 amended: `FindSVGURL` strips the `url(` prefix and the `)` suffix and keeps the `#`.
For every name `n`, `FindSVGURL("url(#" + n + ")")` passes exactly `"#" + n` to the
named-element lookup and returns what the lookup returns for it; for every `n` other than
`none` that does not start with `url(` and does not end with `)`, `FindSVGURL(n)` passes
exactly `n` and returns what the lookup returns for it. -/
theorem FindSVGURL_strips_wrapper (d : DocScope) (n : GoString) :
    ((FindSVGURL d ("url(#" ++ n ++ ")")).lookups = ["#" ++ n] ∧
     (FindSVGURL d ("url(#" ++ n ++ ")")).result = d.FindNamedElement ("#" ++ n)) ∧
    (n ≠ "none" → "url(".data.isPrefixOf n.data = false → ")".data.isSuffixOf n.data = false →
      (FindSVGURL d n).lookups = [n] ∧ (FindSVGURL d n).result = d.FindNamedElement n) := by
  constructor
  · simp only [FindSVGURL, if_neg (wrapped_ne_none n), TrimPrefix_wrapped, TrimSuffix_close]
    cases d.FindNamedElement ("#" ++ n) <;> simp
  · intro hn hpre hsuf
    have h1 : TrimPrefix n "url(" = n := by unfold TrimPrefix; simp [hpre]
    have h2 : TrimSuffix n ")" = n := by unfold TrimSuffix; simp [hsuf]
    simp only [FindSVGURL, if_neg hn, h1, h2]
    cases d.FindNamedElement n <;> simp

/-- Witness for the amended C8 at the name `a`. -/
theorem FindSVGURL_strips_wrapper_witness :
    (FindSVGURL ⟨fun _ => none, "/svg/p"⟩ "a").lookups = ["a"] ∧
    (FindSVGURL ⟨fun _ => none, "/svg/p"⟩ "a").result = none :=
  (FindSVGURL_strips_wrapper ⟨fun _ => none, "/svg/p"⟩ "a").2 (by decide) (by decide) (by decide)

/-- C9: `Marker(k)` consults the value stored under `k` when `k` is present (whatever is
stored under `marker`), and otherwise behaves as `Marker("marker")`; it returns none, with no
lookup and no log line, when neither key is present; a consulted value that already is a
`*Marker` is returned unchanged with no lookup; a consulted value that is neither a string
nor a `*Marker` gives none. -/
theorem Marker_property_lookup {M S : Type} (d : DocScope) (g : NodeBase M S) (k : GoString) :
    (∀ (g2 : NodeBase M S) (v : PropVal), g.Props k = some v → g2.Props k = some v →
        g.Marker d k = g2.Marker d k) ∧
    (g.Props k = none → g.Marker d k = g.Marker d "marker") ∧
    (g.Props k = none → g.Props "marker" = none →
        (g.Marker d k).result = none ∧ (g.Marker d k).lookups = [] ∧ (g.Marker d k).logs = []) ∧
    (∀ (v : PropVal) (m : Option Marker),
        (g.Props k = some v ∨ (g.Props k = none ∧ g.Props "marker" = some v)) →
        v = PropVal.markerPtr m →
        (g.Marker d k).result = m ∧ (g.Marker d k).lookups = []) ∧
    (∀ (v : PropVal),
        (g.Props k = some v ∨ (g.Props k = none ∧ g.Props "marker" = some v)) →
        (∀ s, v ≠ PropVal.str s) → (∀ m, v ≠ PropVal.markerPtr m) →
        (g.Marker d k).result = none ∧ (g.Marker d k).lookups = []) := by
  refine ⟨?_, ?_, ?_, ?_, ?_⟩
  · intro g2 v h1 h2
    simp [NodeBase.Marker, h1, h2]
  · intro h
    simp only [NodeBase.Marker, h]
    cases g.Props "marker" <;> rfl
  · intro h1 h2
    simp [NodeBase.Marker, h1, h2]
  · intro v m hv hm
    subst hm
    rcases hv with h | ⟨h1, h2⟩
    · simp [NodeBase.Marker, h, markerResolve]
    · simp [NodeBase.Marker, h1, h2, markerResolve]
  · intro v hv hs hm
    have hr : (markerResolve d v).result = none ∧ (markerResolve d v).lookups = [] := by
      cases v with
      | str s => exact absurd rfl (hs s)
      | markerPtr m => exact absurd rfl (hm m)
      | props p => simp [markerResolve]
      | other t => simp [markerResolve]
    rcases hv with h | ⟨h1, h2⟩
    · simpa [NodeBase.Marker, h] using hr
    · simpa [NodeBase.Marker, h1, h2] using hr

/-- Witness for C9: a node whose `marker-start` property holds a `*Marker`. -/
theorem Marker_property_lookup_witness :
    (({ sampleNode with
          Props := fun k => if k = "marker-start" then some (PropVal.markerPtr (some ⟨"arrow"⟩))
            else none } : NodeBase Nat (GoString → Option GoString)).Marker
        ⟨fun _ => none, "/svg/p"⟩ "marker-start").result = some ⟨"arrow"⟩ :=
  ((Marker_property_lookup ⟨fun _ => none, "/svg/p"⟩
      ({ sampleNode with
          Props := fun k => if k = "marker-start" then some (PropVal.markerPtr (some ⟨"arrow"⟩))
            else none } : NodeBase Nat (GoString → Option GoString)) "marker-start").2.2.2.1
    (PropVal.markerPtr (some ⟨"arrow"⟩)) (some ⟨"arrow"⟩) (Or.inl (by simp)) rfl).1

/-! ### Styling -/

/-- A key missing from the CSS map leaves the node as it was. -/
theorem ApplyCSSSVG_absent {M S : Type} (api : PaintAPI M S) (par : ParentCtx M S)
    (node : NodeBase M S) (key : GoString) (css : Props) (h : css key = none) :
    (ApplyCSSSVG api par node key css).1 = node := by
  unfold ApplyCSSSVG
  cases node.IsPainter <;> simp [h]

/-- On a painter node, a key mapped to a property group applies that group to the paint
with `SetStyleProps`. -/
theorem ApplyCSSSVG_group {M S : Type} (api : PaintAPI M S) (par : ParentCtx M S)
    (node : NodeBase M S) (key : GoString) (css : Props) (pm : Props)
    (hp : node.IsPainter = true) (h : css key = some (PropVal.props pm)) :
    ∃ pp, (ApplyCSSSVG api par node key css).1 =
      { node with Pnt := api.SetStyleProps node.Pnt pp pm } := by
  unfold ApplyCSSSVG
  simp only [hp, h, Bool.not_true, Bool.false_eq_true, if_false]
  rcases hpar : par.Parent2D with _ | (_ | pp)
  · exact ⟨none, rfl⟩
  · exact ⟨none, rfl⟩
  · exact ⟨some pp, rfl⟩

/-- `ApplyCSSSVG` changes nothing but the paint record. -/
theorem ApplyCSSSVG_frame {M S : Type} (api : PaintAPI M S) (par : ParentCtx M S)
    (node : NodeBase M S) (key : GoString) (css : Props) :
    (ApplyCSSSVG api par node key css).1.Nm = node.Nm ∧
    (ApplyCSSSVG api par node key css).1.TypeName = node.TypeName ∧
    (ApplyCSSSVG api par node key css).1.Class = node.Class ∧
    (ApplyCSSSVG api par node key css).1.IsPainter = node.IsPainter ∧
    (ApplyCSSSVG api par node key css).1.CSSAgg = node.CSSAgg := by
  unfold ApplyCSSSVG
  cases hq : node.IsPainter
  · simp [hq]
  · simp only [Bool.not_true, Bool.false_eq_true, if_false]
    rcases hk : css key with _ | v
    · simp [hq]
    · cases v with
      | props pm => rcases hpar : par.Parent2D with _ | (_ | pp) <;> simp [hq]
      | str s => simp [hq]
      | markerPtr m => simp [hq]
      | other t => simp [hq]

/-- `StyleCSS` changes neither the painter status nor the CSS aggregate. -/
theorem StyleCSS_frame {M S : Type} (api : PaintAPI M S) (par : ParentCtx M S)
    (node : NodeBase M S) (css : Props) :
    (StyleCSS api par node css).IsPainter = node.IsPainter ∧
    (StyleCSS api par node css).CSSAgg = node.CSSAgg := by
  unfold StyleCSS
  simp only [ApplyCSSSVG_frame]
  exact ⟨trivial, trivial⟩

/-- The CSS aggregate that `StyleSVG` leaves on a painter node: with a parent aggregate, the
previous `CSSAgg` with the parent aggregate and then the own block merged over it; without
one, the own block alone. -/
theorem StyleSVG_CSSAgg {M S : Type} (api : PaintAPI M S) (par : ParentCtx M S)
    (g : NodeBase M S) (hp : g.IsPainter = true) :
    (StyleSVG api par g).CSSAgg =
      AggCSS (match par.ParentCSSAgg with
              | some pagg => AggCSS g.CSSAgg pagg
              | none => Props.nil) g.CSS := by
  unfold StyleSVG
  cases hv : g.Viewport <;>
    simp [hp, Init2D, Init2DBase, StyleCSS_frame]

/-- C1: selector precedence in `StyleCSS`.  Let `prop` read a paint property and let
`sets pm v` mean that applying the property group `pm` leaves that property at `v`
(hypothesis `hset` on `SetStyleProps`).  On a painter node: when the key `"#" + lower(name)`
maps to a group setting the property to `vI`, the property ends at `vI`, whatever the type
and class keys map to; when the id key is absent and `"." + lower(class)` maps to a group
setting it to `vC`, it ends at `vC`, whatever the type key maps to; when both are absent and
`lower(type name)` maps to a group setting it to `vT`, it ends at `vT`. -/
theorem StyleCSS_selector_precedence {M S V : Type} (api : PaintAPI M S) (par : ParentCtx M S)
    (node : NodeBase M S) (css : Props) (prop : Paint M S → V) (sets : Props → V → Prop)
    (hp : node.IsPainter = true)
    (hset : ∀ pc pp pm v, sets pm v → prop (api.SetStyleProps pc pp pm) = v) :
    (∀ gI vI, css ("#" ++ api.ToLower node.Nm) = some (PropVal.props gI) → sets gI vI →
        prop (StyleCSS api par node css).Pnt = vI) ∧
    (∀ gC vC, css ("#" ++ api.ToLower node.Nm) = none →
        css ("." ++ api.ToLower node.Class) = some (PropVal.props gC) → sets gC vC →
        prop (StyleCSS api par node css).Pnt = vC) ∧
    (∀ gT vT, css ("#" ++ api.ToLower node.Nm) = none →
        css ("." ++ api.ToLower node.Class) = none →
        css (api.ToLower node.TypeName) = some (PropVal.props gT) → sets gT vT →
        prop (StyleCSS api par node css).Pnt = vT) := by
  have f1 := ApplyCSSSVG_frame api par node (api.ToLower node.TypeName) css
  have f2 := ApplyCSSSVG_frame api par
    (ApplyCSSSVG api par node (api.ToLower node.TypeName) css).1
    ("." ++ api.ToLower node.Class) css
  refine ⟨?_, ?_, ?_⟩
  · intro gI vI hI hs
    unfold StyleCSS
    simp only [f1.1, f1.2.2.1, f2.1]
    obtain ⟨pp, h⟩ := ApplyCSSSVG_group api par
      (ApplyCSSSVG api par (ApplyCSSSVG api par node (api.ToLower node.TypeName) css).1
        ("." ++ api.ToLower node.Class) css).1
      ("#" ++ api.ToLower node.Nm) css gI (by rw [f2.2.2.2.1, f1.2.2.2.1]; exact hp) hI
    rw [h]
    exact hset _ _ _ _ hs
  · intro gC vC hI hC hs
    unfold StyleCSS
    simp only [f1.1, f1.2.2.1, f2.1]
    rw [ApplyCSSSVG_absent api par _ _ css hI]
    obtain ⟨pp, h⟩ := ApplyCSSSVG_group api par
      (ApplyCSSSVG api par node (api.ToLower node.TypeName) css).1
      ("." ++ api.ToLower node.Class) css gC (by rw [f1.2.2.2.1]; exact hp) hC
    rw [h]
    exact hset _ _ _ _ hs
  · intro gT vT hI hC hT hs
    unfold StyleCSS
    simp only [f1.1, f1.2.2.1, f2.1]
    rw [ApplyCSSSVG_absent api par _ _ css hI, ApplyCSSSVG_absent api par _ _ css hC]
    obtain ⟨pp, h⟩ := ApplyCSSSVG_group api par node (api.ToLower node.TypeName) css gT hp hT
    rw [h]
    exact hset _ _ _ _ hs

/-- Witness for C1: with `fill` set to red, blue and green under `rect`, `.g1` and `#x`,
the node `x` of type `Rect` and class `g1` ends with the id rule's green. -/
theorem StyleCSS_selector_precedence_witness :
    (StyleCSS samplePaintAPI rootCtx sampleNode sampleCSS).Pnt.Sty "fill" = some "green" :=
  (StyleCSS_selector_precedence samplePaintAPI rootCtx sampleNode sampleCSS
      (fun p => p.Sty "fill")
      (fun pm v => ∃ s, pm "fill" = some (PropVal.str s) ∧ v = some s)
      rfl
      (by
        rintro pc pp pm v ⟨s, h, rfl⟩
        simp [samplePaintAPI, h])).1
    (propGroup "fill" "green") (some "green") (by rfl) ⟨"green", by rfl, rfl⟩

/-- C4 at a failing input: a painter node whose parent has an empty CSS aggregate, whose own
CSS block is empty, and whose `CSSAgg` still holds a rule under `circle` from an earlier
pass.  After `StyleSVG` the rule is still in `CSSAgg`, while the parent aggregate with the
own block merged over it has no entry under `circle`. -/
theorem StyleSVG_CSSAgg_keeps_stale_entry :
    ((StyleSVG samplePaintAPI painterCtx { sampleNode with CSSAgg := staleAgg }).CSSAgg
        "circle").isSome = true ∧
    ((AggCSS (AggCSS Props.nil Props.nil) sampleNode.CSS) "circle").isSome = false := by
  constructor
  · rw [StyleSVG_CSSAgg _ _ _ rfl]
    rfl
  · rfl

/-- C6: after `StyleSVG` on a painter node the `Off` flag is true exactly when the resolved
paint has neither stroke nor fill, whatever the flag was before; `hOff` states that
`HasNoStrokeOrFill` does not read the `Off` flag itself. -/
theorem StyleSVG_off_iff_no_stroke_or_fill {M S : Type} (api : PaintAPI M S)
    (par : ParentCtx M S) (g : NodeBase M S) (hp : g.IsPainter = true)
    (hOff : ∀ (p : Paint M S) (b : Bool),
        api.HasNoStrokeOrFill { p with Off := b } = api.HasNoStrokeOrFill p) :
    (StyleSVG api par g).Pnt.Off = true ↔
      api.HasNoStrokeOrFill (StyleSVG api par g).Pnt = true := by
  unfold StyleSVG
  cases hv : g.Viewport <;>
    simp [hp, Init2D, Init2DBase, StyleCSS_frame, hOff]

/-- Witness for C6: a node with no stroke and no fill whose `Off` flag was false. -/
theorem StyleSVG_off_iff_no_stroke_or_fill_witness :
    (StyleSVG samplePaintAPI rootCtx sampleNode).Pnt.Off = true :=
  (StyleSVG_off_iff_no_stroke_or_fill samplePaintAPI rootCtx sampleNode rfl
    (by intro p b; rfl)).mpr rfl

/-! ### Bounding boxes and rendering -/

/-- An intersection is contained in its receiver. -/
theorem Intersect_In_left (r s : Rectangle) : (r.Intersect s).In r = true := by
  obtain ⟨⟨a, b⟩, ⟨c, d⟩⟩ := r
  obtain ⟨⟨e, f⟩, ⟨g, h⟩⟩ := s
  simp only [Rectangle.Intersect, Rectangle.In, Rectangle.Empty, ZR]
  split_ifs <;> simp_all <;> omega

/-- A pop undoes the push before it. -/
theorem PopXForm_PushXForm {M : Type} (rs : RenderState M) (xf : M) :
    (rs.PushXForm xf).PopXForm = rs := by
  cases rs
  rfl

/-- Children that give the viewport back as they got it do so together as well. -/
theorem Render2DChildren_viewport {M κ : Type} :
    ∀ (kids : List (ChildRender M κ)) (vp : Viewport2D M),
      (∀ k ∈ kids, ∀ v, (k v).1 = v) → (Render2DChildren kids vp).1 = vp
  | [], vp, _ => rfl
  | k :: ks, vp, h => by
    simp only [Render2DChildren]
    rw [h k (List.mem_cons_self k ks) vp]
    exact Render2DChildren_viewport ks vp (fun k2 hk2 => h k2 (List.mem_cons_of_mem k hk2))

/-- Children that give the transform stack back as they got it do so together as well. -/
theorem Render2DChildren_XFormStack {M κ : Type} :
    ∀ (kids : List (ChildRender M κ)) (vp : Viewport2D M),
      (∀ k ∈ kids, ∀ v, (k v).1.Render.XFormStack = v.Render.XFormStack) →
      (Render2DChildren kids vp).1.Render.XFormStack = vp.Render.XFormStack
  | [], vp, _ => rfl
  | k :: ks, vp, h => by
    simp only [Render2DChildren]
    rw [Render2DChildren_XFormStack ks (k vp).1
      (fun k2 hk2 => h k2 (List.mem_cons_of_mem k hk2))]
    exact h k (List.mem_cons_self k ks) vp

mutual
/-- `Render2D` gives the viewport and its render state back as it got them. -/
theorem Render2D_viewport {M S : Type} :
    ∀ (t : Tree M S) (vp : Viewport2D M), (Render2D vp t).1 = vp
  | .node g bbox2D kids, vp => by
    simp only [Render2D, NodeBase.Render2D]
    rw [Render2DChildren_viewport _ _ (renders_viewport kids)]
    simp only [PopXForm_PushXForm]
/-- Every child of a tree node gives the viewport and its render state back as it got
them. -/
theorem renders_viewport {M S : Type} :
    ∀ (ts : List (Tree M S)), ∀ k ∈ Tree.renders ts, ∀ v, (k v).1 = v
  | [], k, hk, v => by simp [Tree.renders] at hk
  | t :: ts, k, hk, v => by
    simp only [Tree.renders, List.mem_cons] at hk
    rcases hk with rfl | hk
    · exact Render2D_viewport t v
    · exact renders_viewport ts k hk v
end

mutual
/-- After `Render2D` every node of the subtree has its `VpBBox` inside the viewport box. -/
theorem Render2D_all_in_viewport {M S : Type} (r : Rectangle) :
    ∀ (t : Tree M S) (vp : Viewport2D M), vp.VpBBox = r →
      Tree.All (fun n => n.VpBBox.In r = true) (Render2D vp t).2
  | .node g bbox2D kids, vp, hr => by
    simp only [Render2D, NodeBase.Render2D, Tree.All]
    refine ⟨?_, renders_all_in_viewport r kids
      { vp with Render := vp.Render.PushXForm g.Pnt.XForm } hr⟩
    simp only [ComputeBBoxSVG, SetWinBBox, ← hr]
    exact Intersect_In_left _ _
/-- After the children of a tree node have rendered, every node of every child subtree has
its `VpBBox` inside the viewport box. -/
theorem renders_all_in_viewport {M S : Type} (r : Rectangle) :
    ∀ (ts : List (Tree M S)) (vp : Viewport2D M), vp.VpBBox = r →
      Tree.AllList (fun n => n.VpBBox.In r = true) (Render2DChildren (Tree.renders ts) vp).2
  | [], vp, _ => by simp [Tree.renders, Render2DChildren, Tree.AllList]
  | t :: ts, vp, hr => by
    simp only [Tree.renders, Render2DChildren, Tree.AllList]
    refine ⟨Render2D_all_in_viewport r t vp hr, ?_⟩
    rw [Render2D_viewport t vp]
    exact renders_all_in_viewport r ts vp hr
end

/-- C2 as stated fails: in a viewport of `(0,0)-(100,100)`, a parent whose bounding box is
`(0,0)-(10,10)` and a child whose bounding box is `(20,20)-(30,30)` keep these boxes as
`VpBBox` after `Render2D`, and the child's is not contained in the parent's. -/
theorem Render2D_child_outside_parent :
    (Render2D sampleViewport sampleTree).2.base.VpBBox = ⟨⟨0, 0⟩, ⟨10, 10⟩⟩ ∧
    ((Render2D sampleViewport sampleTree).2.kids.map (fun k => k.base.VpBBox))
      = [⟨⟨20, 20⟩, ⟨30, 30⟩⟩] ∧
    (Render2D sampleViewport sampleTree).2.nested = false := by
  decide

/-- C2 amended: after `Render2D` on a tree, the `VpBBox` of every node of the tree is
contained (`Rectangle.In`) in the `VpBBox` of the viewport the nodes are bound to
(`g.Viewport`, the enclosing SVG), which the render pass leaves unchanged. -/
theorem Render2D_VpBBox_in_viewport {M S : Type} (vp : Viewport2D M) (t : Tree M S) :
    Tree.All (fun n => n.VpBBox.In vp.VpBBox = true) (Render2D vp t).2 ∧
    (Render2D vp t).1.VpBBox = vp.VpBBox :=
  ⟨Render2D_all_in_viewport vp.VpBBox t vp rfl, by rw [Render2D_viewport]⟩

/-- C3: `Render2D` pushes exactly one transform, the node's `Pnt.XForm`, and pops exactly
one.  For every node, every list of children (whatever their own `Render2D` does) and every
initial transform stack: the children are rendered on a viewport that differs from the
caller's by exactly `Pnt.XForm` on top of the stack; after them exactly the top entry of the
stack they leave is removed; so, given that each child's render gives the stack back as it
got it, the stack when `Render2D` returns is the stack before the call.  On a finite tree of
such nodes every child does, so there the stack is restored with no condition. -/
theorem Render2D_push_pop_discipline {M S κ : Type} (g : NodeBase M S)
    (bbox2D : Viewport2D M → NodeBase M S → Rectangle) (kids : List (ChildRender M κ))
    (vp : Viewport2D M) :
    ((g.Render2D bbox2D kids vp).2.2 =
        (Render2DChildren kids
          { vp with Render :=
              { vp.Render with XFormStack := g.Pnt.XForm :: vp.Render.XFormStack } }).2 ∧
     (g.Render2D bbox2D kids vp).1.Render.XFormStack =
        (Render2DChildren kids
          { vp with Render :=
              { vp.Render with XFormStack := g.Pnt.XForm :: vp.Render.XFormStack } }
          ).1.Render.XFormStack.tail) ∧
    ((∀ k ∈ kids, ∀ v, (k v).1.Render.XFormStack = v.Render.XFormStack) →
      (Render2DChildren kids
          { vp with Render :=
              { vp.Render with XFormStack := g.Pnt.XForm :: vp.Render.XFormStack } }
          ).1.Render.XFormStack = g.Pnt.XForm :: vp.Render.XFormStack ∧
      (g.Render2D bbox2D kids vp).1.Render.XFormStack = vp.Render.XFormStack) ∧
    (∀ t : Tree M S, (Render2D vp t).1.Render.XFormStack = vp.Render.XFormStack) := by
  refine ⟨⟨rfl, rfl⟩, ?_, ?_⟩
  · intro h
    have hk := Render2DChildren_XFormStack kids
      { vp with Render :=
          { vp.Render with XFormStack := g.Pnt.XForm :: vp.Render.XFormStack } } h
    refine ⟨hk, ?_⟩
    have htail : (g.Render2D bbox2D kids vp).1.Render.XFormStack =
        (Render2DChildren kids
          { vp with Render :=
              { vp.Render with XFormStack := g.Pnt.XForm :: vp.Render.XFormStack } }
          ).1.Render.XFormStack.tail := rfl
    rw [htail, hk]
    rfl
  · intro t
    rw [Render2D_viewport]

/-- Witness for C3: a node on a stack holding one transform, with one child that draws
(it moves `LastRenderBBox`) and leaves the stack alone. -/
theorem Render2D_push_pop_discipline_witness :
    (Render2DChildren [sampleDrawingChild]
        { sampleViewport with Render :=
            { sampleViewport.Render with
              XFormStack := sampleNode.Pnt.XForm :: sampleViewport.Render.XFormStack } }
        ).1.Render.XFormStack = sampleNode.Pnt.XForm :: sampleViewport.Render.XFormStack ∧
    (sampleNode.Render2D BBox2D [sampleDrawingChild] sampleViewport).1.Render.XFormStack =
      sampleViewport.Render.XFormStack :=
  (Render2D_push_pop_discipline sampleNode BBox2D [sampleDrawingChild] sampleViewport).2.1
    (by
      intro k hk v
      rw [List.mem_singleton] at hk
      subst hk
      rfl)

end svg
